import Mathlib

/-!
Verification of the commerce core of the `aem-productbus-demo` storefront:
the event bus (`src/scripts/commerce/events.js`), the adapter resolver facade
(`commerce/api`), and the two cart adapters
(`src/scripts/commerce/adapters/edge.js`, `src/scripts/commerce/adapters/mock.js`).

The JavaScript is embedded shallowly: the key→item object of the cart is an
association list in insertion order (matching JS object key order for string
keys), JS numbers are `Int`, throwing functions return `Except`/error-pair
results, and the stateful persistence and resolver machinery is explicit
state passing with step functions.
-/

namespace Commerce

/-- A cart line item (`{sku, name, quantity, price, ...}`).  Quantities and
prices are JS numbers, embedded as `Int`. -/
structure Item where
  sku : String
  name : String
  quantity : Int
  price : Int
  deriving Repr, DecidableEq

/-- The module-level `items` object of the adapters: JS objects with string
keys preserve insertion order, so the embedding is an association list from
sku to item, keys unique in every reachable state. -/
abbrev ItemMap := List (String × Item)

/-- `items[sku]` — first (unique) binding of `sku`. -/
def lookupItem (m : ItemMap) (sku : String) : Option Item :=
  (m.find? (fun p => p.1 = sku)).map (fun p => p.2)

/-- The stored quantity of `sku`, `0` when absent. -/
def qtyOf (m : ItemMap) (sku : String) : Int :=
  ((lookupItem m sku).map (fun i => i.quantity)).getD 0

/-- `existing.quantity += item.quantity` applied to a stored item. -/
def addQuantity (d : Int) (i : Item) : Item :=
  { i with quantity := i.quantity + d }

/-- `items[sku].quantity = q` applied to a stored item. -/
def withQuantity (q : Int) (i : Item) : Item :=
  { i with quantity := q }

/-- Mutation of `items` performed by `addToCart(item)`, identical in both
adapters: if `items[item.sku]` exists, `existing.quantity += item.quantity`;
else `items[item.sku] = { ...item }` (a field-for-field copy appended in
key order). -/
def addToCart (m : ItemMap) (it : Item) : ItemMap :=
  if (m.find? (fun p => p.1 = it.sku)).isSome then
    m.map (fun p => if p.1 = it.sku then (p.1, addQuantity it.quantity p.2) else p)
  else
    m ++ [(it.sku, it)]

/-- `delete items[sku]`: removes the binding, a no-op when absent. -/
def deleteItem (m : ItemMap) (sku : String) : ItemMap :=
  m.filter (fun p => ¬ p.1 = sku)

/-- `items[sku].quantity = q`: in-place update preserving key order. -/
def setQty (m : ItemMap) (sku : String) (q : Int) : ItemMap :=
  m.map (fun p => if p.1 = sku then (p.1, withQuantity q p.2) else p)

/-- The cart snapshot `{items, itemCount, subtotal, shipping}` returned by
every read. -/
structure Cart where
  items : List Item
  itemCount : Int
  subtotal : Int
  shipping : Int
  deriving Repr, DecidableEq

/-- `SHIPPING_THRESHOLD` of the edge adapter. -/
def SHIPPING_THRESHOLD : Int := 150

/-- `SHIPPING_COST` of the edge adapter. -/
def SHIPPING_COST : Int := 10

/-- `buildCart()` of the edge adapter: `Object.values(items)` plus the
derived fields, shipping free at or above the threshold. -/
def buildCart (m : ItemMap) : Cart :=
  let allItems := m.map (fun p => p.2)
  let subtotal := allItems.foldl (fun s i => s + i.quantity * i.price) 0
  { items := allItems
    itemCount := allItems.foldl (fun s i => s + i.quantity) 0
    subtotal := subtotal
    shipping := if subtotal ≥ SHIPPING_THRESHOLD then 0 else SHIPPING_COST }

/-- `buildCart()` of the mock adapter: identical except `shipping: 0`. -/
def mockBuildCart (m : ItemMap) : Cart :=
  let allItems := m.map (fun p => p.2)
  { items := allItems
    itemCount := allItems.foldl (fun s i => s + i.quantity) 0
    subtotal := allItems.foldl (fun s i => s + i.quantity * i.price) 0
    shipping := 0 }

/-- Edge `updateItemQuantity(sku, quantity)`: throws
`Item ${sku} not in cart` when absent (before any mutation); `q ≤ 0`
deletes the line, otherwise replaces its quantity. -/
def edgeUpdateItemQuantity (m : ItemMap) (sku : String) (q : Int) :
    Except String ItemMap :=
  match lookupItem m sku with
  | none => .error ("Item " ++ sku ++ " not in cart")
  | some _ => .ok (if q ≤ 0 then deleteItem m sku else setQty m sku q)

/-- Edge `removeItem(sku)`: `delete items[sku]` unconditionally; the body
contains no throw, so the embedding is a total function. -/
def edgeRemoveItem (m : ItemMap) (sku : String) : ItemMap :=
  deleteItem m sku

/-- Mock `updateItemQuantity(sku, quantity)`: `q ≤ 0` deletes (present or
not), otherwise updates only when present; never throws. -/
def mockUpdateItemQuantity (m : ItemMap) (sku : String) (q : Int) : ItemMap :=
  if q ≤ 0 then deleteItem m sku
  else if (lookupItem m sku).isSome then setQty m sku q
  else m

/-- Mock `removeItem(sku)`. -/
def mockRemoveItem (m : ItemMap) (sku : String) : ItemMap :=
  deleteItem m sku

/-- Every reachable `items` object binds each sku key to an item whose
`sku` field equals the key (both adapters only ever write
`items[item.sku] = ...`). -/
def WellKeyed (m : ItemMap) : Prop :=
  ∀ p ∈ m, p.2.sku = p.1

-- ### Event bus (`src/scripts/commerce/events.js`)

/-- Literal key/value pairs of the `EVENTS` object. -/
def EVENTS : List (String × String) :=
  [("CART_UPDATED", "commerce:cart-updated"),
   ("CART_EMPTY", "commerce:cart-empty"),
   ("ORDER_CREATED", "commerce:order-created")]

/-- Property read `EVENTS[k]`: `none` models an `undefined` result. -/
def eventsLookup (k : String) : Option String :=
  (EVENTS.find? (fun p => p.1 = k)).map (fun p => p.2)

/-- Value of `EVENTS.CART_UPDATED`. -/
def CART_UPDATED : String := "commerce:cart-updated"

/-- Value of `EVENTS.CART_EMPTY`. -/
def CART_EMPTY : String := "commerce:cart-empty"

/-- Detail payload handed to `dispatch`: an optional `cart` field plus the
remaining operation metadata, opaque to the event bus. -/
structure Detail where
  cart : Option Cart
  extra : String
  deriving Repr, DecidableEq

/-- Optional-chain read `detail.cart?.itemCount`. -/
def detailItemCount (d : Detail) : Option Int :=
  d.cart.map (fun c => c.itemCount)

/-- One call of `dispatch(name, detail)`: the ordered list of CustomEvents
dispatched on `document`.  The primary event always fires first; a
`CART_EMPTY` event with the same detail follows exactly when the name is
`CART_UPDATED` and `detail.cart?.itemCount === 0`.  The output depends only
on the two arguments — the derivation reads no other state and is emitted
once per call, not per listener. -/
def dispatch (name : String) (d : Detail) : List (String × Detail) :=
  [(name, d)] ++
    (if name = CART_UPDATED ∧ detailItemCount d = some 0
      then [(CART_EMPTY, d)] else [])

/-- Events of `events` received by a listener registered via
`listen(listenerName, cb)`: exactly those dispatched under the same name. -/
def delivered {α : Type} (events : List (String × α)) (listenerName : String) :
    List (String × α) :=
  events.filter (fun e => e.1 = listenerName)

/-- Coercion performed by `new CustomEvent(type, ...)` on its type argument:
a DOMString conversion, under which the `undefined` read of a missing
`EVENTS` key becomes the literal string "undefined". -/
def jsEventName (v : Option String) : String := v.getD "undefined"

/-- Name under which the facade (`commerce/api`) dispatches its auth-state
notification in `verifyCode` and `logout`: `EVENTS.AUTH_STATE_CHANGED`. -/
def facadeAuthEventName : String := jsEventName (eventsLookup "AUTH_STATE_CHANGED")

/-- Name hard-coded by the 401 handler of the edge adapter. -/
def edgeAuthEventName : String := "commerce:auth-state-changed"

-- ### Auth session manager (edge adapter)

/-- Auth storage of the edge adapter: `sessionStorage[AUTH_TOKEN_KEY]`
(ephemeral token) and `localStorage[AUTH_USER_KEY]` (durable user JSON). -/
structure AuthState where
  sessionToken : Option String
  userStore : Option String
  deriving Repr, DecidableEq

/-- Payload of a `commerce:auth-state-changed` CustomEvent. -/
structure AuthDetail where
  loggedIn : Bool
  email : Option String
  reason : Option String
  deriving Repr, DecidableEq

/-- Body of `authFetch(url, options)`: throws `Not authenticated` when no
token is stored; otherwise performs the request and, when the response
status is 401, removes the token and the user store and dispatches
`commerce:auth-state-changed` with
`{loggedIn: false, email: null, reason: "token_expired"}` before handing
the response back.  Embedded as a function of the auth state and the
received status, returning the new state, the dispatched events and the
forwarded status. -/
def authFetch (st : AuthState) (status : Nat) :
    Except String (AuthState × List (String × AuthDetail) × Nat) :=
  match st.sessionToken with
  | none => .error "Not authenticated"
  | some _ =>
    if status = 401 then
      .ok (⟨none, none⟩,
        [(edgeAuthEventName, ⟨false, none, some "token_expired"⟩)],
        status)
    else
      .ok (st, [], status)

/-- `isLoggedIn()` of the edge adapter. -/
def isLoggedIn (st : AuthState) : Bool := st.sessionToken.isSome

/-- `logout()` of the edge adapter: best-effort backend notification, then
unconditionally clears both stores; the adapter itself dispatches no
event. -/
def logout (_st : AuthState) : AuthState × List (String × AuthDetail) :=
  (⟨none, none⟩, [])

-- ### Restore-on-load (edge adapter `restore()`)

/-- `STORAGE_VERSION` of the edge adapter. -/
def STORAGE_VERSION : Int := 1

/-- Outcome of `JSON.parse` on the persisted raw string: either the parse
(or a subsequent property read on a non-object) throws, or it yields an
envelope with a `version` (embedded as `Int`; a non-number version compares
unequal to `STORAGE_VERSION` just like any wrong number) and an optional
`items` array (`parsed.items || []` supplies the fallback). -/
inductive StoredValue
  | unparsable
  | parsed (version : Int) (items : Option (List Item))
  deriving Repr, DecidableEq

/-- One step of the restore reduce, `acc[item.sku] = item`: replace in
place when the key exists, else append. -/
def restoreInsert (m : ItemMap) (it : Item) : ItemMap :=
  if (m.find? (fun p => p.1 = it.sku)).isSome then
    m.map (fun p => if p.1 = it.sku then (p.1, it) else p)
  else m ++ [(it.sku, it)]

/-- `restore()` as run at module load, when `items = {}`: takes the
persisted value under the cart storage key (`none` when absent) and returns
the storage content after the call together with the resulting in-memory
`items`.  A missing value is ignored; an unparsable value and a version
mismatch remove the persisted value and leave `items` empty; only a
version-matching envelope populates `items`.  The try/catch makes the
function total — it never throws to the caller. -/
def restore (stored : Option StoredValue) : Option StoredValue × ItemMap :=
  match stored with
  | none => (none, [])
  | some .unparsable => (none, [])
  | some (.parsed v its) =>
    if v ≠ STORAGE_VERSION then (none, [])
    else (some (.parsed v its), (its.getD []).foldl restoreInsert [])

-- ### Debounced persistence (edge adapter)

/-- State of the debounced writer of the edge adapter: the in-memory
`items`, the `persistTimer` variable (the handle most recently returned by
`setTimeout`), the list of timer handles currently scheduled, a fresh
handle counter, and the log of writes that have landed in `localStorage`
(each entry the items written). -/
structure PersistState where
  items : ItemMap
  persistTimer : Option Nat
  pending : List Nat
  nextTimer : Nat
  writes : List ItemMap
  deriving Repr, DecidableEq

/-- `persistNow()`: writes the current items (and mirrors the count
cookie) immediately. -/
def persistNow (s : PersistState) : PersistState :=
  { s with writes := s.writes ++ [s.items] }

/-- `persist()`: `clearTimeout(persistTimer)` followed by
`persistTimer = setTimeout(persistNow, 300)` — deschedules the stored
handle (a no-op when none is scheduled) and schedules a fresh one. -/
def persist (s : PersistState) : PersistState :=
  let cleared := match s.persistTimer with
    | some h => s.pending.filter (fun t => ¬ t = h)
    | none => s.pending
  { s with pending := cleared ++ [s.nextTimer],
           persistTimer := some s.nextTimer,
           nextTimer := s.nextTimer + 1 }

/-- A debounced cart mutation (`addToCart`, `updateItemQuantity`,
`removeItem`): the in-memory mutation followed by `persist()`. -/
def mutate (s : PersistState) (f : ItemMap → ItemMap) : PersistState :=
  persist { s with items := f s.items }

/-- The debounce timer with handle `h` firing after the quiet period: only
a still-scheduled handle can fire; it runs `persistNow` on the
then-current items and is descheduled (the `persistTimer` variable keeps
the stale handle, as in the source). -/
def fireTimer (s : PersistState) (h : Nat) : PersistState :=
  if h ∈ s.pending then
    { persistNow s with pending := s.pending.filter (fun t => ¬ t = h) }
  else s

/-- `clearCart()` of the edge adapter: empties `items` and calls
`persistNow()` synchronously, touching no timer. -/
def clearCart (s : PersistState) : PersistState :=
  persistNow { s with items := [] }

/-- Timer bookkeeping invariant of every reachable persistence state: only
the handle held in `persistTimer` can be scheduled, and all issued handles
are below the fresh counter. -/
def TimerInv (s : PersistState) : Prop :=
  (s.pending = [] ∨ ∃ h, s.persistTimer = some h ∧ s.pending = [h])
  ∧ (∀ h, s.persistTimer = some h → h < s.nextTimer)

-- ### Adapter resolver (`commerce/api` facade)

/-- `const ADAPTER = 'edge'`, the compiled-in default adapter identifier. -/
def ADAPTER : String := "edge"

/-- JS `a || b` on a possibly-absent string: falls back when the left value
is absent (`null`) or falsy (the empty string). -/
def jsOrElse (v : Option String) (dflt : String) : String :=
  match v with
  | some s => if s = "" then dflt else s
  | none => dflt

/-- `getAdapterName()`: the `commerce-adapter` localStorage override
`|| ADAPTER`. -/
def getAdapterName (override : Option String) : String :=
  jsOrElse override ADAPTER

/-- Resolver module state: the memoized `adapter` instance (identified by
its construction number), the in-flight `loading` promise (by id), the
running count of adapter constructions (`mod.default()` calls), and a
fresh promise counter. -/
structure ResolverState where
  adapter : Option Nat
  loading : Option Nat
  constructions : Nat
  nextPromise : Nat
  deriving Repr, DecidableEq

/-- Module state at process start. -/
def initialResolver : ResolverState :=
  { adapter := none, loading := none, constructions := 0, nextPromise := 0 }

/-- What the synchronous body of one `loadAdapter()` call returns to its
caller: the memoized instance, or the (possibly just-created) in-flight
promise. -/
inductive LoadResult
  | memoized (a : Nat)
  | pending (p : Nat)
  deriving Repr, DecidableEq

/-- The synchronous body of `loadAdapter()`: memoized adapter if present,
else the in-flight promise if present, else it starts the dynamic import
and stores the new promise in `loading`. -/
def loadAdapterCall (st : ResolverState) : LoadResult × ResolverState :=
  match st.adapter with
  | some a => (.memoized a, st)
  | none =>
    match st.loading with
    | some p => (.pending p, st)
    | none =>
      (.pending st.nextPromise,
        { st with loading := some st.nextPromise,
                  nextPromise := st.nextPromise + 1 })

/-- The `.then` continuation of the import promise `p` settling:
`adapter = mod.default()` (one construction), `loading = null`.  A promise
settles at most once, and only the promise currently stored in `loading`
was ever created, which the guard reflects. -/
def resolveStep (st : ResolverState) (p : Nat) : ResolverState :=
  if st.loading = some p then
    { st with adapter := some st.constructions,
              constructions := st.constructions + 1,
              loading := none }
  else st

/-- An event of the single-threaded resolver history: a `loadAdapter()`
call, or the import promise `p` settling. -/
inductive ResolverEvent
  | call
  | settle (p : Nat)

/-- State transition of one resolver event. -/
def resolverStep (st : ResolverState) (e : ResolverEvent) : ResolverState :=
  match e with
  | .call => (loadAdapterCall st).2
  | .settle p => resolveStep st p

/-- Construction-count invariant of the resolver: before the first
resolution nothing was constructed; afterwards exactly one instance was,
it is memoized, and no load is in flight. -/
def ResolverInv (st : ResolverState) : Prop :=
  (st.constructions = 0 ∧ st.adapter = none)
  ∨ (st.constructions = 1 ∧ st.loading = none ∧ ∃ a, st.adapter = some a)

-- ### Reference-semantics snapshots (`buildCart` aliasing)

/-- The JS heap of line-item objects: the internal `items` map stores
references into it, and `Object.values` copies references, not objects.  A
reference is an index. -/
abbrev Heap := List Item

/-- Field read through a reference. -/
def heapGet (h : Heap) (r : Nat) : Option Item := h.get? r

/-- External mutation `itemObj.quantity = q` performed through a reference
obtained from a returned snapshot. -/
def heapSetQuantity (h : Heap) (r : Nat) (q : Int) : Heap :=
  match h.get? r with
  | some it => h.set r (withQuantity q it)
  | none => h

/-- Default for a dangling reference read (never reached on reachable
states, where every stored reference is live). -/
def noItem : Item := ⟨"", "", 0, 0⟩

/-- A snapshot under reference semantics: the cart record and its `items`
array are freshly allocated, but the elements of the array are the
references held in the internal map. -/
structure RefCart where
  itemRefs : List Nat
  itemCount : Int
  subtotal : Int
  shipping : Int
  deriving Repr, DecidableEq

/-- `buildCart()` of the edge adapter under reference semantics: the
derived fields are recomputed from the current heap contents, and the
`items` array holds the internal references themselves. -/
def heapBuildCart (h : Heap) (s : List (String × Nat)) : RefCart :=
  let refs := s.map (fun p => p.2)
  let its := refs.map (fun r => (heapGet h r).getD noItem)
  let subtotal := its.foldl (fun acc i => acc + i.quantity * i.price) 0
  { itemRefs := refs
    itemCount := its.foldl (fun acc i => acc + i.quantity) 0
    subtotal := subtotal
    shipping := if subtotal ≥ SHIPPING_THRESHOLD then 0 else SHIPPING_COST }

section CartLemmas

theorem find?_map_update (m : ItemMap) (sku : String) (g : Item → Item) :
    (m.map (fun p => if p.1 = sku then (p.1, g p.2) else p)).find? (fun p => p.1 = sku)
      = (m.find? (fun p => p.1 = sku)).map (fun p => (p.1, g p.2)) := by
  induction m with
  | nil => rfl
  | cons hd tl ih =>
    by_cases h : hd.1 = sku
    · simp only [List.map_cons, if_pos h]
      rw [List.find?_cons_of_pos, List.find?_cons_of_pos] <;> simp [h]
    · simp only [List.map_cons, if_neg h]
      rw [List.find?_cons_of_neg, List.find?_cons_of_neg, ih] <;> simp [h]

theorem lookupItem_setQty_self (m : ItemMap) (sku : String) (q : Int) (it : Item)
    (h : lookupItem m sku = some it) :
    lookupItem (setQty m sku q) sku = some (withQuantity q it) := by
  unfold lookupItem setQty at *
  rw [find?_map_update]
  cases hf : m.find? (fun p => p.1 = sku) with
  | none => rw [hf] at h; simp at h
  | some p =>
    rw [hf] at h
    simp only [Option.map_some'] at h ⊢
    injection h with h
    rw [h]

theorem lookupItem_deleteItem_self (m : ItemMap) (sku : String) :
    lookupItem (deleteItem m sku) sku = none := by
  unfold lookupItem deleteItem
  induction m with
  | nil => rfl
  | cons hd tl ih =>
    by_cases h : hd.1 = sku
    · rw [List.filter_cons, if_neg (by simp [h])]
      exact ih
    · rw [List.filter_cons, if_pos (by simp [h])]
      rw [List.find?_cons_of_neg]
      · exact ih
      · simp [h]

theorem deleteItem_of_absent (m : ItemMap) (sku : String)
    (h : lookupItem m sku = none) : deleteItem m sku = m := by
  unfold lookupItem at h
  unfold deleteItem
  induction m with
  | nil => rfl
  | cons hd tl ih =>
    by_cases hh : hd.1 = sku
    · rw [List.find?_cons_of_pos] at h
      · simp at h
      · simp [hh]
    · rw [List.find?_cons_of_neg] at h
      · simp only [List.filter_cons, decide_eq_true_eq]
        rw [if_pos (by simpa using hh), ih h]
      · simp [hh]

theorem lookupItem_append_absent (m : ItemMap) (sku : String) (it : Item)
    (h : lookupItem m sku = none) :
    lookupItem (m ++ [(sku, it)]) sku = some it := by
  unfold lookupItem at *
  induction m with
  | nil => simp [List.find?]
  | cons hd tl ih =>
    by_cases hh : hd.1 = sku
    · rw [List.find?_cons_of_pos] at h
      · simp at h
      · simp [hh]
    · rw [List.find?_cons_of_neg] at h
      · rw [List.cons_append, List.find?_cons_of_neg]
        · exact ih h
        · simp [hh]
      · simp [hh]

theorem addToCart_absent (m : ItemMap) (it : Item)
    (h : lookupItem m it.sku = none) :
    addToCart m it = m ++ [(it.sku, it)] := by
  unfold addToCart
  rw [if_neg]
  unfold lookupItem at h
  cases hf : m.find? (fun p => p.1 = it.sku) with
  | none => simp
  | some p => rw [hf] at h; simp at h

theorem addToCart_present (m : ItemMap) (it : Item) (p : String × Item)
    (hf : m.find? (fun q => q.1 = it.sku) = some p) :
    addToCart m it
      = m.map (fun q => if q.1 = it.sku then (q.1, addQuantity it.quantity q.2) else q) := by
  unfold addToCart
  rw [hf]
  simp

theorem qtyOf_addToCart_self (m : ItemMap) (it : Item) :
    qtyOf (addToCart m it) it.sku = qtyOf m it.sku + it.quantity := by
  cases hf : m.find? (fun p => p.1 = it.sku) with
  | none =>
    have habs : lookupItem m it.sku = none := by
      unfold lookupItem; rw [hf]; rfl
    rw [addToCart_absent m it habs]
    unfold qtyOf
    rw [lookupItem_append_absent m it.sku it habs, habs]
    simp
  | some p =>
    rw [addToCart_present m it p hf]
    unfold qtyOf lookupItem
    rw [find?_map_update, hf]
    simp [addQuantity]

theorem qtyOf_foldl_addToCart (its : List Item) (sku : String)
    (hsku : ∀ x ∈ its, x.sku = sku) (m : ItemMap) :
    qtyOf (its.foldl addToCart m) sku
      = qtyOf m sku + (its.map (fun i => i.quantity)).sum := by
  induction its generalizing m with
  | nil => simp
  | cons hd tl ih =>
    simp only [List.foldl_cons, List.map_cons, List.sum_cons]
    rw [ih (fun x hx => hsku x (List.mem_cons_of_mem hd hx))]
    have hhd : hd.sku = sku := hsku hd (List.mem_cons_self hd tl)
    rw [← hhd, qtyOf_addToCart_self, hhd]
    ring

theorem foldl_add_quantity (l : List Item) (a : Int) :
    l.foldl (fun s i => s + i.quantity) a = a + (l.map (fun i => i.quantity)).sum := by
  induction l generalizing a with
  | nil => simp
  | cons hd tl ih => simp [ih]; ring

theorem sum_quantity_values (m : ItemMap) :
    ((m.map (fun p => p.2)).map (fun i => i.quantity)).sum
      = (m.map (fun p => p.2.quantity)).sum := by
  induction m with
  | nil => rfl
  | cons hd tl ih => simp only [List.map_cons, List.sum_cons, ih]

theorem itemCount_eq_sum (m : ItemMap) :
    (buildCart m).itemCount = (m.map (fun p => p.2.quantity)).sum := by
  show (m.map (fun p => p.2)).foldl (fun s i => s + i.quantity) 0 = _
  rw [foldl_add_quantity, sum_quantity_values, zero_add]

theorem mock_itemCount_eq_sum (m : ItemMap) :
    (mockBuildCart m).itemCount = (m.map (fun p => p.2.quantity)).sum := by
  show (m.map (fun p => p.2)).foldl (fun s i => s + i.quantity) 0 = _
  rw [foldl_add_quantity, sum_quantity_values, zero_add]

end CartLemmas

/-- C1: over any sequence of `addToCart` calls with a common sku (both the
edge and the mock adapter run the same merge-on-add mutation of `items`),
starting from a cart where that sku is absent, the final stored quantity
equals the sum of the requested quantities; for every cart state the
`itemCount` of the snapshot returned by `getCart` (edge and mock
`buildCart`) is the sum of the quantities over all skus present; and adding
an absent sku appends the given line item verbatim. -/
theorem claim1_addToCart_sums (m : ItemMap) (sku : String) (its : List Item)
    (hsku : ∀ x ∈ its, x.sku = sku) (habs : lookupItem m sku = none) :
    qtyOf (its.foldl addToCart m) sku = (its.map (fun i => i.quantity)).sum
    ∧ (∀ m' : ItemMap,
        (buildCart m').itemCount = (m'.map (fun p => p.2.quantity)).sum
        ∧ (mockBuildCart m').itemCount = (m'.map (fun p => p.2.quantity)).sum)
    ∧ (∀ it : Item, lookupItem m it.sku = none →
        addToCart m it = m ++ [(it.sku, it)]
        ∧ lookupItem (addToCart m it) it.sku = some it) := by
  refine ⟨?_, fun m' => ⟨itemCount_eq_sum m', mock_itemCount_eq_sum m'⟩, fun it h => ?_⟩
  · rw [qtyOf_foldl_addToCart its sku hsku m]
    unfold qtyOf
    rw [habs]
    simp
  · refine ⟨addToCart_absent m it h, ?_⟩
    rw [addToCart_absent m it h]
    exact lookupItem_append_absent m it.sku it h

/-- C1 witness: two adds of sku "A" (quantities 2 then 1) onto the empty
cart leave stored quantity 3 = 2 + 1. -/
theorem claim1_addToCart_sums_witness :
    qtyOf (([⟨"A", "A", 2, 10⟩, ⟨"A", "A", 1, 10⟩] : List Item).foldl addToCart []) "A"
      = (([⟨"A", "A", 2, 10⟩, ⟨"A", "A", 1, 10⟩] : List Item).map (fun i => i.quantity)).sum :=
  (claim1_addToCart_sums [] "A" [⟨"A", "A", 2, 10⟩, ⟨"A", "A", 1, 10⟩]
    (by decide) rfl).1

/-- C8: in both adapters, `updateItemQuantity(sku, q)` on a present sku
removes the line item entirely when `q ≤ 0` — the sku is absent from the
`items` of a subsequent `getCart()` snapshot — and replaces (does not add
to) the stored quantity when `q > 0`. -/
theorem claim8_update_removes_or_replaces (m : ItemMap) (sku : String) (q : Int)
    (it : Item) (hw : WellKeyed m) (hp : lookupItem m sku = some it) :
    (q ≤ 0 →
      edgeUpdateItemQuantity m sku q = .ok (deleteItem m sku)
      ∧ mockUpdateItemQuantity m sku q = deleteItem m sku
      ∧ lookupItem (deleteItem m sku) sku = none
      ∧ (∀ i ∈ (buildCart (deleteItem m sku)).items, i.sku ≠ sku)
      ∧ (∀ i ∈ (mockBuildCart (deleteItem m sku)).items, i.sku ≠ sku))
    ∧ (0 < q →
      edgeUpdateItemQuantity m sku q = .ok (setQty m sku q)
      ∧ mockUpdateItemQuantity m sku q = setQty m sku q
      ∧ lookupItem (setQty m sku q) sku = some { it with quantity := q }) := by
  have habsent : ∀ i ∈ (deleteItem m sku).map (fun p => p.2), i.sku ≠ sku := by
    intro i hi
    obtain ⟨p, hpmem, hpi⟩ := List.mem_map.mp hi
    have hflt := List.mem_filter.mp hpmem
    have hne : ¬ p.1 = sku := by simpa using hflt.2
    have hk : p.2.sku = p.1 := hw p hflt.1
    rw [← hpi, hk]
    exact hne
  constructor
  · intro hq
    refine ⟨?_, ?_, lookupItem_deleteItem_self m sku, habsent, habsent⟩
    · unfold edgeUpdateItemQuantity
      rw [hp]
      simp [hq]
    · unfold mockUpdateItemQuantity
      rw [if_pos hq]
  · intro hq
    have hq' : ¬ q ≤ 0 := not_le.mpr hq
    refine ⟨?_, ?_, lookupItem_setQty_self m sku q it hp⟩
    · unfold edgeUpdateItemQuantity
      rw [hp]
      simp [hq']
    · unfold mockUpdateItemQuantity
      rw [if_neg hq', hp]
      simp

/-- C8 witness: on a cart holding sku "A" with quantity 2, update to 0
removes the line and update to 5 replaces the quantity. -/
theorem claim8_update_removes_or_replaces_witness :
    edgeUpdateItemQuantity [("A", ⟨"A", "A", 2, 10⟩)] "A" 0
        = .ok (deleteItem [("A", ⟨"A", "A", 2, 10⟩)] "A")
    ∧ edgeUpdateItemQuantity [("A", ⟨"A", "A", 2, 10⟩)] "A" 5
        = .ok (setQty [("A", ⟨"A", "A", 2, 10⟩)] "A" 5) := by
  have hw : WellKeyed [("A", (⟨"A", "A", 2, 10⟩ : Item))] := by
    intro p hp
    simp at hp
    subst hp
    rfl
  exact ⟨((claim8_update_removes_or_replaces _ "A" 0 ⟨"A", "A", 2, 10⟩ hw rfl).1
            (by decide)).1,
         ((claim8_update_removes_or_replaces _ "A" 5 ⟨"A", "A", 2, 10⟩ hw rfl).2
            (by decide)).1⟩

/-- C4 counterexample: `removeItem` of the network-backed (edge) adapter
contains no failure path.  On the empty cart, where sku "A" is absent, it
returns normally with the cart unchanged (`delete items[sku]` is a silent
no-op) instead of failing with an error naming "A" — refuting the part of
the claim that says both `updateItemQuantity` and `removeItem` fail on an
absent sku. -/
theorem claim4_counterexample :
    lookupItem ([] : ItemMap) "A" = none
    ∧ edgeRemoveItem ([] : ItemMap) "A" = []
    ∧ buildCart (edgeRemoveItem ([] : ItemMap) "A") = buildCart [] :=
  ⟨rfl, rfl, rfl⟩

/-- C4 amended: in the network-backed adapter, `updateItemQuantity` on an
absent sku fails with an explicit error naming the missing sku and the
cart is unchanged by the failed call (the throw precedes every mutation);
`removeItem` on an absent sku does not fail and leaves the cart unchanged;
in the local-only adapter neither operation on an absent sku fails, and
both leave the cart unchanged. -/
theorem claim4_absent_sku (m : ItemMap) (sku : String) (q : Int)
    (habs : lookupItem m sku = none) :
    edgeUpdateItemQuantity m sku q = .error ("Item " ++ sku ++ " not in cart")
    ∧ edgeRemoveItem m sku = m
    ∧ mockRemoveItem m sku = m
    ∧ mockUpdateItemQuantity m sku q = m := by
  have hdel : deleteItem m sku = m := deleteItem_of_absent m sku habs
  refine ⟨?_, hdel, hdel, ?_⟩
  · unfold edgeUpdateItemQuantity
    rw [habs]
  · unfold mockUpdateItemQuantity
    by_cases hq : q ≤ 0
    · rw [if_pos hq]
      exact hdel
    · rw [if_neg hq, habs]
      simp

/-- C4 witness: on the empty cart, `updateItemQuantity("B", 3)` of the edge
adapter fails with the error naming "B" while the mock operations return
the cart unchanged. -/
theorem claim4_absent_sku_witness :
    edgeUpdateItemQuantity ([] : ItemMap) "B" 3
        = .error ("Item " ++ "B" ++ " not in cart")
    ∧ mockUpdateItemQuantity ([] : ItemMap) "B" 3 = [] := by
  have h := claim4_absent_sku [] "B" 3 rfl
  exact ⟨h.1, h.2.2.2⟩

/-- C2: one `dispatch(name, detail)` call first dispatches the primary
event; when the name is `CART_UPDATED` and the detail has
`cart.itemCount === 0` exactly one `CART_EMPTY` event follows, synchronous
and carrying the identical detail; when the itemCount is positive, or the
name is any other event, no `CART_EMPTY` event follows the primary one.
`dispatch` is a pure function of `(name, detail)`, so the derivation
depends only on the dispatched payload, not on listeners or separate
state, and happens once per call. -/
theorem claim2_cart_empty_derivation (name : String) (d : Detail) :
    (dispatch name d).take 1 = [(name, d)]
    ∧ (name = CART_UPDATED → detailItemCount d = some 0 →
        (dispatch name d).drop 1 = [(CART_EMPTY, d)])
    ∧ (∀ n : Int, detailItemCount d = some n → 0 < n →
        ((dispatch name d).drop 1).filter (fun e => e.1 = CART_EMPTY) = [])
    ∧ (name ≠ CART_UPDATED →
        ((dispatch name d).drop 1).filter (fun e => e.1 = CART_EMPTY) = []) := by
  refine ⟨?_, ?_, ?_, ?_⟩
  · unfold dispatch
    simp
  · intro hn hc
    unfold dispatch
    rw [if_pos ⟨hn, hc⟩]
    simp
  · intro n hc hn
    unfold dispatch
    rw [if_neg]
    · simp
    · intro hcontra
      obtain ⟨_, hc0⟩ := hcontra
      rw [hc] at hc0
      injection hc0 with hc0
      omega
  · intro hn
    unfold dispatch
    rw [if_neg]
    · simp
    · intro hcontra
      exact hn hcontra.1

/-- C2 witness: dispatching `CART_UPDATED` with an empty cart yields
exactly the derived `[(CART_EMPTY, detail)]` after the primary event, and
dispatching another event name yields no derived `CART_EMPTY`. -/
theorem claim2_cart_empty_derivation_witness :
    (dispatch CART_UPDATED ⟨some (buildCart []), "add"⟩).drop 1
        = [(CART_EMPTY, ⟨some (buildCart []), "add"⟩)]
    ∧ ((dispatch "commerce:order-created" ⟨none, "order"⟩).drop 1).filter
        (fun e => e.1 = CART_EMPTY) = [] :=
  ⟨(claim2_cart_empty_derivation CART_UPDATED ⟨some (buildCart []), "add"⟩).2.1
      rfl rfl,
   (claim2_cart_empty_derivation "commerce:order-created" ⟨none, "order"⟩).2.2.2
      (by decide)⟩

/-- C10: the `EVENTS` map defines exactly the three names `CART_UPDATED`,
`CART_EMPTY`, `ORDER_CREATED` and no auth event, so
`EVENTS.AUTH_STATE_CHANGED` is `undefined` and the CustomEvents the facade
dispatches in `verifyCode` and `logout` carry the coerced name
"undefined", which differs from the `commerce:auth-state-changed` name the
401 handler of the edge adapter dispatches; a listener registered for
either of the two names receives none of the events dispatched under the
other. -/
theorem claim10_auth_event_name_mismatch :
    EVENTS.map (fun p => p.1) = ["CART_UPDATED", "CART_EMPTY", "ORDER_CREATED"]
    ∧ eventsLookup "AUTH_STATE_CHANGED" = none
    ∧ facadeAuthEventName = "undefined"
    ∧ facadeAuthEventName ≠ edgeAuthEventName
    ∧ (∀ d : Detail, delivered (dispatch facadeAuthEventName d) edgeAuthEventName = [])
    ∧ (∀ d : AuthDetail, delivered [(edgeAuthEventName, d)] facadeAuthEventName = []) := by
  refine ⟨rfl, rfl, rfl, by decide, ?_, ?_⟩
  · intro d
    unfold delivered dispatch
    rw [if_neg]
    · simp only [List.append_nil, List.filter_cons, List.filter_nil]
      rw [if_neg]
      simp only [decide_eq_true_eq]
      decide
    · intro ⟨hn, _⟩
      exact absurd hn (by decide)
  · intro d
    unfold delivered
    simp only [List.filter_cons, List.filter_nil]
    rw [if_neg]
    simp only [decide_eq_true_eq]
    decide

/-- C10 witness: a listener registered for `commerce:auth-state-changed`
receives nothing from a facade auth dispatch (whose event name is the
coerced "undefined"). -/
theorem claim10_auth_event_name_mismatch_witness :
    delivered (dispatch facadeAuthEventName ⟨none, "auth"⟩) edgeAuthEventName
      = [] :=
  claim10_auth_event_name_mismatch.2.2.2.2.1 ⟨none, "auth"⟩

/-- C6: in the edge adapter, an authenticated request (a stored token
exists) that receives a 401 response clears the ephemeral token store and
the durable user store and dispatches exactly one
`commerce:auth-state-changed` event with
`{loggedIn: false, email: null, reason: "token_expired"}`; `isLoggedIn()`
on the resulting state returns false.  Explicit `logout()` clears the same
two stores but dispatches no event at all from the adapter — in
particular none carrying the `token_expired` reason — which distinguishes
involuntary session loss from explicit logout. -/
theorem claim6_unauthorized_teardown (st : AuthState) (t : String) (status : Nat)
    (htok : st.sessionToken = some t) (h401 : status = 401) :
    authFetch st status
      = .ok (⟨none, none⟩,
          [(edgeAuthEventName, ⟨false, none, some "token_expired"⟩)], status)
    ∧ isLoggedIn ⟨none, none⟩ = false
    ∧ logout st = (⟨none, none⟩, [])
    ∧ (∀ e ∈ (logout st).2, e.2.reason ≠ some "token_expired") := by
  refine ⟨?_, rfl, rfl, ?_⟩
  · unfold authFetch
    rw [htok, if_pos h401]
  · intro e he
    simp [logout] at he

/-- C6 witness: a logged-in state (token "tok", user "u") receiving a 401
undergoes the teardown with the distinguishing event. -/
theorem claim6_unauthorized_teardown_witness :
    authFetch ⟨some "tok", some "u"⟩ 401
      = .ok (⟨none, none⟩,
          [(edgeAuthEventName, ⟨false, none, some "token_expired"⟩)], 401) :=
  (claim6_unauthorized_teardown ⟨some "tok", some "u"⟩ "tok" 401 rfl rfl).1

/-- C5: `restore()` discards a persisted envelope whose `version` differs
from `STORAGE_VERSION` — the persisted value is removed and the in-memory
cart stays empty, never partially loaded — and likewise deletes an
unparsable persisted value and stays empty; `restore` is a total function
(the try/catch means no error reaches the caller), and a subsequent
`getCart()` on the resulting state returns an empty cart (`items = []`,
`itemCount = 0`) in both adapters. -/
theorem claim5_restore_discards (stored : Option StoredValue) :
    (∀ v its, v ≠ STORAGE_VERSION → stored = some (.parsed v its) →
      restore stored = (none, [])
      ∧ (buildCart (restore stored).2).items = []
      ∧ (buildCart (restore stored).2).itemCount = 0
      ∧ (mockBuildCart (restore stored).2).items = []
      ∧ (mockBuildCart (restore stored).2).itemCount = 0)
    ∧ (stored = some .unparsable →
      restore stored = (none, [])
      ∧ (buildCart (restore stored).2).items = []
      ∧ (buildCart (restore stored).2).itemCount = 0) := by
  constructor
  · intro v its hv hs
    subst hs
    have hr : restore (some (.parsed v its)) = (none, []) := by
      simp only [restore]
      rw [if_pos hv]
    rw [hr]
    exact ⟨rfl, rfl, rfl, rfl, rfl⟩
  · intro hs
    subst hs
    exact ⟨rfl, rfl, rfl⟩

/-- C5 witness: a persisted envelope with version 2 (current schema
version is 1) is deleted and the cart restores to empty even though the
envelope carried an item. -/
theorem claim5_restore_discards_witness :
    restore (some (.parsed 2 (some [⟨"A", "A", 4, 25⟩]))) = (none, [])
    ∧ (buildCart (restore (some (.parsed 2 (some [⟨"A", "A", 4, 25⟩])))).2).itemCount
        = 0 := by
  have h := (claim5_restore_discards (some (.parsed 2 (some [⟨"A", "A", 4, 25⟩])))).1
    2 (some [⟨"A", "A", 4, 25⟩]) (by decide) rfl
  exact ⟨h.1, h.2.2.1⟩

section PersistenceLemmas

theorem timerInv_length (s : PersistState) (h : TimerInv s) :
    s.pending.length ≤ 1 := by
  rcases h.1 with hp | ⟨t, _, hp⟩ <;> simp [hp]

theorem persist_pending (s : PersistState) (h : TimerInv s) :
    (persist s).pending = [s.nextTimer] := by
  show (match s.persistTimer with
    | some t => s.pending.filter (fun u => ¬ u = t)
    | none => s.pending) ++ [s.nextTimer] = [s.nextTimer]
  rcases h.1 with hp | ⟨t, hpt, hp⟩
  · cases hh : s.persistTimer <;> simp [hp]
  · rw [hpt, hp]
    simp

theorem timerInv_persist (s : PersistState) (h : TimerInv s) :
    TimerInv (persist s) := by
  refine ⟨Or.inr ⟨s.nextTimer, rfl, persist_pending s h⟩, ?_⟩
  intro t ht
  have h2 : (persist s).persistTimer = some s.nextTimer := rfl
  rw [h2] at ht
  injection ht with ht
  have h3 : (persist s).nextTimer = s.nextTimer + 1 := rfl
  rw [h3, ← ht]
  omega

theorem timerInv_mutate (s : PersistState) (f : ItemMap → ItemMap)
    (h : TimerInv s) : TimerInv (mutate s f) :=
  timerInv_persist { s with items := f s.items } h

theorem mutate_writes (s : PersistState) (f : ItemMap → ItemMap) :
    (mutate s f).writes = s.writes := rfl

theorem mutate_items (s : PersistState) (f : ItemMap → ItemMap) :
    (mutate s f).items = f s.items := rfl

theorem mutate_pending (s : PersistState) (f : ItemMap → ItemMap)
    (h : TimerInv s) : (mutate s f).pending = [s.nextTimer] :=
  persist_pending { s with items := f s.items } h

theorem timerInv_fire (s : PersistState) (t : Nat) (h : TimerInv s) :
    TimerInv (fireTimer s t) := by
  unfold fireTimer
  by_cases hm : t ∈ s.pending
  · rw [if_pos hm]
    refine ⟨Or.inl ?_, h.2⟩
    rcases h.1 with hp | ⟨u, hpt, hp⟩
    · rw [hp] at hm
      simp at hm
    · rw [hp] at hm
      simp at hm
      subst hm
      rw [hp]
      simp
  · rw [if_neg hm]
    exact h

theorem timerInv_clear (s : PersistState) (h : TimerInv s) :
    TimerInv (clearCart s) := h

theorem mutateMany_spec (fs : List (ItemMap → ItemMap)) (s : PersistState)
    (h : TimerInv s) :
    TimerInv (fs.foldl mutate s)
    ∧ (fs.foldl mutate s).writes = s.writes
    ∧ (fs.foldl mutate s).items = fs.foldl (fun m f => f m) s.items
    ∧ (fs ≠ [] → ∃ t, (fs.foldl mutate s).pending = [t]) := by
  induction fs generalizing s with
  | nil => exact ⟨h, rfl, rfl, fun hne => absurd rfl hne⟩
  | cons f rest ih =>
    have h1 : TimerInv (mutate s f) := timerInv_mutate s f h
    obtain ⟨ha, hb, hc, hd⟩ := ih (mutate s f) h1
    refine ⟨ha, ?_, ?_, ?_⟩
    · rw [List.foldl_cons, hb, mutate_writes]
    · rw [List.foldl_cons, hc, mutate_items, List.foldl_cons]
    · intro _
      rw [List.foldl_cons]
      cases rest with
      | nil =>
        exact ⟨s.nextTimer, by
          simp only [List.foldl_nil]
          exact mutate_pending s f h⟩
      | cons g gs => exact hd (by simp)

theorem fire_single (s : PersistState) (t : Nat) (hp : s.pending = [t]) :
    (fireTimer s t).writes = s.writes ++ [s.items]
    ∧ (fireTimer s t).pending = []
    ∧ (fireTimer s t).items = s.items := by
  unfold fireTimer
  rw [if_pos (by rw [hp]; exact List.mem_singleton.mpr rfl)]
  refine ⟨rfl, ?_, rfl⟩
  show s.pending.filter (fun u => ¬ u = t) = []
  rw [hp]
  simp

theorem fire_idle (s : PersistState) (t : Nat) (hp : s.pending = []) :
    fireTimer s t = s := by
  unfold fireTimer
  rw [if_neg]
  rw [hp]
  simp

end PersistenceLemmas

/-- C7: under the timer invariant satisfied by every reachable state of
the edge adapter (at process start nothing is scheduled), at most one
persist timer is pending at any time, and the invariant is preserved by
every debounced mutation, timer firing and `clearCart`; a nonempty
sequence of debounced mutations inside one window performs no write while
the window is open, leaves exactly one timer pending, and when that timer
fires after the quiet period exactly one write lands, containing precisely
the final cart state (the fold of all the mutations), after which no
further timer firing changes anything; `clearCart` instead writes the
emptied cart synchronously, with no timer involved. -/
theorem claim7_debounce (s : PersistState) (fs : List (ItemMap → ItemMap))
    (hinv : TimerInv s) (hne : fs ≠ []) :
    s.pending.length ≤ 1
    ∧ (∀ f, TimerInv (mutate s f))
    ∧ (∀ t, TimerInv (fireTimer s t))
    ∧ TimerInv (clearCart s)
    ∧ (fs.foldl mutate s).writes = s.writes
    ∧ (fs.foldl mutate s).items = fs.foldl (fun m f => f m) s.items
    ∧ (∃ t, (fs.foldl mutate s).pending = [t]
        ∧ (fireTimer (fs.foldl mutate s) t).writes
            = s.writes ++ [fs.foldl (fun m f => f m) s.items]
        ∧ (fireTimer (fs.foldl mutate s) t).pending = []
        ∧ (∀ u, fireTimer (fireTimer (fs.foldl mutate s) t) u
            = fireTimer (fs.foldl mutate s) t))
    ∧ (clearCart s).writes = s.writes ++ [[]]
    ∧ (clearCart s).items = [] := by
  obtain ⟨ha, hb, hc, hd⟩ := mutateMany_spec fs s hinv
  obtain ⟨t, ht⟩ := hd hne
  obtain ⟨hw, hpend, _⟩ := fire_single _ t ht
  refine ⟨timerInv_length s hinv, fun f => timerInv_mutate s f hinv,
    fun u => timerInv_fire s u hinv, timerInv_clear s hinv, hb, hc,
    ⟨t, ht, ?_, hpend, fun u => fire_idle _ u hpend⟩, rfl, rfl⟩
  rw [hw, hb, hc]

/-- C7 witness: two rapid adds of sku "A" starting from the pristine
module state land no write while the window is open. -/
theorem claim7_debounce_witness :
    (([fun m => addToCart m ⟨"A", "A", 1, 5⟩,
       fun m => addToCart m ⟨"A", "A", 2, 5⟩] :
        List (ItemMap → ItemMap)).foldl mutate
      (⟨[], none, [], 0, []⟩ : PersistState)).writes = [] := by
  have h := claim7_debounce (⟨[], none, [], 0, []⟩ : PersistState)
    [fun m => addToCart m ⟨"A", "A", 1, 5⟩, fun m => addToCart m ⟨"A", "A", 2, 5⟩]
    ⟨Or.inl rfl, fun t ht => by simp at ht⟩ (by simp)
  exact h.2.2.2.2.1

section ResolverLemmas

theorem resolverInv_step (st : ResolverState) (e : ResolverEvent)
    (h : ResolverInv st) : ResolverInv (resolverStep st e) := by
  cases e with
  | call =>
    show ResolverInv (loadAdapterCall st).2
    unfold loadAdapterCall
    cases ha : st.adapter with
    | some a => exact h
    | none =>
      cases hl : st.loading with
      | some p => exact h
      | none =>
        rcases h with ⟨hc, hadapt⟩ | ⟨hc, hl0, a, ha0⟩
        · exact Or.inl ⟨hc, rfl⟩
        · rw [ha0] at ha
          cases ha
  | settle p =>
    show ResolverInv (resolveStep st p)
    unfold resolveStep
    by_cases hl : st.loading = some p
    · rw [if_pos hl]
      rcases h with ⟨hc, hadapt⟩ | ⟨hc, hl0, a, ha0⟩
      · exact Or.inr ⟨by rw [hc], rfl, st.constructions, rfl⟩
      · rw [hl0] at hl
        cases hl
    · rw [if_neg hl]
      exact h

theorem resolverInv_trace (tr : List ResolverEvent) (st : ResolverState)
    (h : ResolverInv st) : ResolverInv (tr.foldl resolverStep st) := by
  induction tr generalizing st with
  | nil => exact h
  | cons e rest ih => exact ih _ (resolverInv_step st e h)

theorem resolverInv_constructions (st : ResolverState) (h : ResolverInv st) :
    st.constructions ≤ 1 := by
  rcases h with ⟨hc, _⟩ | ⟨hc, _, _⟩ <;> omega

end ResolverLemmas

/-- C3 counterexample: a persisted override that is present but equal to
the empty string is not selected — `localStorage.getItem(...) || ADAPTER`
discards the falsy empty-string override and selects the compiled-in
default "edge" instead, refuting the claim that the adapter identifier is
the persisted override value whenever one is present. -/
theorem claim3_counterexample :
    (some "" : Option String) ≠ none
    ∧ getAdapterName (some "") = "edge"
    ∧ getAdapterName (some "") ≠ "" := by
  refine ⟨by simp, rfl, by decide⟩

/-- C3 amended: `loadAdapter()` returns the memoized adapter unchanged when
one exists; when a resolution is in flight every caller receives that same
pending promise without starting another load (single-flight); the adapter
identifier is the persisted override value when one is present and
non-empty, else the compiled-in default; over every event history from
process start at most one adapter instance is ever constructed; and the
settling of the in-flight import constructs, memoizes and thereafter
returns that one instance. -/
theorem claim3_resolver_single_flight (st : ResolverState) (ov : Option String)
    (tr : List ResolverEvent) :
    (∀ a, st.adapter = some a → loadAdapterCall st = (.memoized a, st))
    ∧ (∀ p, st.adapter = none → st.loading = some p →
        loadAdapterCall st = (.pending p, st))
    ∧ (∀ s, ov = some s → ¬ s = "" → getAdapterName ov = s)
    ∧ (ov = none → getAdapterName ov = ADAPTER)
    ∧ (ResolverInv st → (tr.foldl resolverStep st).constructions ≤ 1)
    ∧ (tr.foldl resolverStep initialResolver).constructions ≤ 1
    ∧ (∀ p, st.loading = some p →
        (resolveStep st p).adapter = some st.constructions
        ∧ (resolveStep st p).loading = none
        ∧ loadAdapterCall (resolveStep st p)
            = (.memoized st.constructions, resolveStep st p)) := by
  refine ⟨?_, ?_, ?_, ?_, ?_, ?_, ?_⟩
  · intro a ha
    unfold loadAdapterCall
    rw [ha]
  · intro p ha hl
    unfold loadAdapterCall
    rw [ha, hl]
  · intro s hs hne
    subst hs
    show (if s = "" then ADAPTER else s) = s
    rw [if_neg hne]
  · intro hov
    subst hov
    rfl
  · intro h
    exact resolverInv_constructions _ (resolverInv_trace tr st h)
  · exact resolverInv_constructions _
      (resolverInv_trace tr initialResolver (Or.inl ⟨rfl, rfl⟩))
  · intro p hl
    unfold resolveStep
    rw [if_pos hl]
    exact ⟨rfl, rfl, rfl⟩

/-- C3 witness: a state with a memoized instance returns it unchanged, and
a present non-empty override "mock" is selected. -/
theorem claim3_resolver_single_flight_witness :
    loadAdapterCall ⟨some 0, none, 1, 1⟩ = (.memoized 0, ⟨some 0, none, 1, 1⟩)
    ∧ getAdapterName (some "mock") = "mock" := by
  have h := claim3_resolver_single_flight ⟨some 0, none, 1, 1⟩ (some "mock") []
  exact ⟨h.1 0 rfl, h.2.2.1 "mock" rfl (by decide)⟩

section SnapshotLemmas

theorem get?_set_self (l : List Item) (n : Nat) (a it : Item)
    (hl : l.get? n = some it) :
    (l.set n a).get? n = some a := by
  induction l generalizing n with
  | nil => simp at hl
  | cons x xs ih =>
    cases n with
    | zero => rfl
    | succ k => exact ih k (by simpa using hl)

theorem heapGet_heapSetQuantity_self (h : Heap) (r : Nat) (q : Int) (it : Item)
    (hr : heapGet h r = some it) :
    heapGet (heapSetQuantity h r q) r = some (withQuantity q it) := by
  unfold heapSetQuantity
  unfold heapGet at hr ⊢
  rw [hr]
  exact get?_set_self h r (withQuantity q it) it hr

end SnapshotLemmas

/-- C9 counterexample: the items array of a returned snapshot holds the
internal line-item objects themselves (`Object.values` copies references,
not objects).  With one stored item of quantity 1, the snapshot exposes
reference 0 — the internal object — and assigning quantity 99 through that
reference changes the internal state: the next `getCart()` snapshot reports
`itemCount = 99` instead of 1, refuting the claim that mutating any part
of a returned snapshot leaves the internal state and all subsequent
snapshots unchanged. -/
theorem claim9_counterexample :
    (heapBuildCart [⟨"A", "A", 1, 10⟩] [("A", 0)]).itemRefs = [0]
    ∧ (heapBuildCart [⟨"A", "A", 1, 10⟩] [("A", 0)]).itemCount = 1
    ∧ heapSetQuantity [⟨"A", "A", 1, 10⟩] 0 99 = [⟨"A", "A", 99, 10⟩]
    ∧ (heapBuildCart (heapSetQuantity [⟨"A", "A", 1, 10⟩] 0 99)
        [("A", 0)]).itemCount = 99 := by
  refine ⟨rfl, rfl, rfl, rfl⟩

/-- C9 amended: every read returns a freshly computed and freshly
allocated cart record `{items, itemCount, subtotal, shipping}` whose
derived fields are recomputed from the current item set at read time, but
the elements of its items array are the internal line-item objects
themselves, not copies: a field write through a reference taken from a
returned snapshot is a write to the object of the store, visible in all
subsequent snapshots. -/
theorem claim9_snapshot_aliasing (h : Heap) (s : List (String × Nat)) :
    (heapBuildCart h s).itemRefs = s.map (fun p => p.2)
    ∧ (heapBuildCart h s).itemCount
        = (((s.map (fun p => p.2)).map (fun r => (heapGet h r).getD noItem)).map
            (fun i => i.quantity)).sum
    ∧ (∀ r q it, r ∈ (heapBuildCart h s).itemRefs → heapGet h r = some it →
        heapGet (heapSetQuantity h r q) r = some (withQuantity q it)) := by
  refine ⟨rfl, ?_, ?_⟩
  · show ((s.map (fun p => p.2)).map (fun r => (heapGet h r).getD noItem)).foldl
        (fun acc i => acc + i.quantity) 0 = _
    rw [foldl_add_quantity, zero_add]
  · intro r q it _ hr
    exact heapGet_heapSetQuantity_self h r q it hr

/-- C9 witness: a write of quantity 5 through the snapshot reference of a
one-item store lands in the heap the store reads. -/
theorem claim9_snapshot_aliasing_witness :
    heapGet (heapSetQuantity [⟨"B", "B", 2, 7⟩] 0 5) 0
      = some (withQuantity 5 ⟨"B", "B", 2, 7⟩) :=
  (claim9_snapshot_aliasing [⟨"B", "B", 2, 7⟩] [("B", 0)]).2.2 0 5 ⟨"B", "B", 2, 7⟩
    (by decide) rfl

end Commerce
